import Mathlib

/-!
Verification of the svm-spoke slow-fill instructions
(`src/programs/svm-spoke/src/instructions/slow_fill.rs`).

The embedding models byte strings as `List Nat` (one entry per byte), 32-byte
account identifiers and digests as `Nat` values, and the fallible Anchor
instruction handlers as functions into `Except CustomError`.  The Anchor
account constraints run before the handler body, in account-declaration
order, and a failed constraint aborts the whole transaction; this is modelled
by checking the constraints first inside the handler functions, with the
`Except` error result standing for an aborted transaction with no state
change.

Collaborators of `slow_fill.rs` that live in other modules of the crate
(`crate::constraints::is_relay_hash_valid`, `crate::utils::verify_merkle_proof`,
the SPL `transfer_checked` capability, the `FillType` event tag) are modelled
from the specification and marked as such in their doc comments.  The keccak
hash primitive and the canonical relay-data hash are abstract parameters
threaded through the definitions.
-/

namespace SvmSpoke

/-- A byte string: one `Nat` per byte. -/
abbrev Bytes := List Nat

/-- Little-endian encoding of `v` into `w` bytes, as `u32::to_le_bytes` /
`u64::to_le_bytes` produce for in-range values. -/
def leBytes : Nat → Nat → Bytes
  | 0, _ => []
  | w + 1, v => v % 256 :: leBytes w (v / 256)

/-- The raw 32 bytes of a 32-byte account identifier (`Pubkey::to_bytes`),
with the identifier modelled as its numeric value. -/
def pubkeyBytes (k : Nat) : Bytes := leBytes 32 k

/-- The error taxonomy of `crate::error::CustomError` restricted to the codes
the slow-fill instructions can raise; `TransferFailed` stands for an error
propagated from the SPL token transfer. -/
inductive CustomError where
  | FillsArePaused
  | InvalidRelayHash
  | NoSlowFillsInExclusivityWindow
  | ExpiredFillDeadline
  | InvalidSlowFillRequest
  | InvalidMerkleProof
  | InvalidFillRecipient
  | InvalidMint
  | TransferFailed
  deriving DecidableEq

/-- `V3RelayData` (defined in fill.rs, layout per the spec data model):
32-byte account and token identifiers, u64 amounts and chain/deposit ids,
u32 deadlines, and a variable-length message. -/
structure V3RelayData where
  depositor : Nat
  recipient : Nat
  exclusive_relayer : Nat
  input_token : Nat
  output_token : Nat
  input_amount : Nat
  output_amount : Nat
  origin_chain_id : Nat
  deposit_id : Nat
  fill_deadline : Nat
  exclusivity_deadline : Nat
  message : Bytes
  deriving DecidableEq

/-- Field bounds of the Rust types carried by `V3RelayData`. -/
def V3RelayData.Wf (r : V3RelayData) : Prop :=
  r.depositor < 2 ^ 256 ∧ r.recipient < 2 ^ 256 ∧ r.exclusive_relayer < 2 ^ 256 ∧
  r.input_token < 2 ^ 256 ∧ r.output_token < 2 ^ 256 ∧
  r.input_amount < 2 ^ 64 ∧ r.output_amount < 2 ^ 64 ∧
  r.origin_chain_id < 2 ^ 64 ∧ r.deposit_id < 2 ^ 64 ∧
  r.fill_deadline < 2 ^ 32 ∧ r.exclusivity_deadline < 2 ^ 32 ∧
  ∀ b ∈ r.message, b < 256

/-- The `V3SlowFill` struct: relay data plus destination chain id and the
amount actually disbursed. -/
structure V3SlowFill where
  relay_data : V3RelayData
  chain_id : Nat
  updated_output_amount : Nat
  deriving DecidableEq

/-- Field bounds of the Rust types carried by `V3SlowFill`. -/
def V3SlowFill.Wf (s : V3SlowFill) : Prop :=
  s.relay_data.Wf ∧ s.chain_id < 2 ^ 64 ∧ s.updated_output_amount < 2 ^ 64

/-- `V3SlowFill::to_bytes`: field-by-field concatenation in the source's
order, integers little-endian, the message appended raw. -/
def V3SlowFill.to_bytes (s : V3SlowFill) : Bytes :=
  pubkeyBytes s.relay_data.depositor ++
  pubkeyBytes s.relay_data.recipient ++
  pubkeyBytes s.relay_data.exclusive_relayer ++
  pubkeyBytes s.relay_data.input_token ++
  pubkeyBytes s.relay_data.output_token ++
  leBytes 8 s.relay_data.input_amount ++
  leBytes 8 s.relay_data.output_amount ++
  leBytes 8 s.relay_data.origin_chain_id ++
  leBytes 8 s.relay_data.deposit_id ++
  leBytes 4 s.relay_data.fill_deadline ++
  leBytes 4 s.relay_data.exclusivity_deadline ++
  s.relay_data.message ++
  leBytes 8 s.chain_id ++
  leBytes 8 s.updated_output_amount

/-- `V3SlowFill::to_keccak_hash`: the keccak digest of `to_bytes`, with the
keccak-256 primitive (external to the crate) abstracted as a parameter
returning the digest's numeric value. -/
def V3SlowFill.to_keccak_hash (keccak : Bytes → Nat) (s : V3SlowFill) : Nat :=
  keccak s.to_bytes

/-- `FillStatus` from `crate::state`. -/
inductive FillStatus where
  | Unfilled
  | RequestedSlowFill
  | Filled
  deriving DecidableEq

/-- `FillStatusAccount` from `crate::state`: the per-relay fill record. -/
structure FillStatusAccount where
  status : FillStatus
  relayer : Nat
  deriving DecidableEq

/-- The fields of `crate::state::State` used by the slow-fill instructions. -/
structure State where
  seed : Nat
  chain_id : Nat
  current_time : Nat
  paused_fills : Bool
  deriving DecidableEq

/-- `RootBundle` from `crate::state`: the published slow-relay Merkle root. -/
structure RootBundle where
  slow_relay_root : Nat
  deriving DecidableEq

/-- Modelled from the spec: `crate::constraints::is_relay_hash_valid` is not
under `src/`; per the spec, the check is that the caller-supplied relay hash
equals the protocol-defined canonical hash of the relay data given the
state's configuration.  The canonical hash primitive is abstracted as the
`canonicalHash` parameter, applied to the relay data and the state's chain
id. -/
def is_relay_hash_valid (canonicalHash : V3RelayData → Nat → Nat)
    (relay_hash : Nat) (relay_data : V3RelayData) (state : State) : Bool :=
  relay_hash == canonicalHash relay_data state.chain_id

/-- Modelled from the spec: the pairwise combining step of
`crate::utils::verify_merkle_proof` is not under `src/`; per the spec, the
current digest and the sibling are combined by hashing the pair in a
canonical order (the sorted pair). -/
def hash_pair (keccak : Bytes → Nat) (a b : Nat) : Nat :=
  if a ≤ b then keccak (leBytes 32 a ++ leBytes 32 b)
  else keccak (leBytes 32 b ++ leBytes 32 a)

/-- Recompute the Merkle root from a leaf digest and an ordered sibling
path. -/
def process_proof (keccak : Bytes → Nat) (leaf : Nat) (proof : List Nat) : Nat :=
  proof.foldl (hash_pair keccak) leaf

/-- Modelled from the spec: `crate::utils::verify_merkle_proof` is not under
`src/`; per the spec, it recomputes a root from the leaf digest and the
ordered sibling path and fails with `InvalidMerkleProof` when the recomputed
root differs from the trusted root. -/
def verify_merkle_proof (keccak : Bytes → Nat) (root leaf : Nat)
    (proof : List Nat) : Except CustomError Unit :=
  if process_proof keccak leaf proof = root then .ok () else .error .InvalidMerkleProof

/-- The `RequestedV3SlowFill` event payload, fields as emitted by
`request_v3_slow_fill`. -/
structure RequestedV3SlowFill where
  input_token : Nat
  output_token : Nat
  input_amount : Nat
  output_amount : Nat
  origin_chain_id : Nat
  deposit_id : Nat
  fill_deadline : Nat
  exclusivity_deadline : Nat
  exclusive_relayer : Nat
  depositor : Nat
  recipient : Nat
  message : Bytes
  deriving DecidableEq

/-- Modelled from the spec: `crate::event::FillType` is not under `src/`;
the spec only requires a fill-type tag whose `SlowFill` variant marks a slow
fill. -/
inductive FillType where
  | FastFill
  | ReplacedSlowFill
  | SlowFill
  deriving DecidableEq

/-- `V3RelayExecutionEventInfo`, the execution metadata nested in
`FilledV3Relay`. -/
structure V3RelayExecutionEventInfo where
  updated_recipient : Nat
  updated_message : Bytes
  updated_output_amount : Nat
  fill_type : FillType
  deriving DecidableEq

/-- The `FilledV3Relay` event payload, fields as emitted by
`execute_v3_slow_relay_leaf`. -/
structure FilledV3Relay where
  input_token : Nat
  output_token : Nat
  input_amount : Nat
  output_amount : Nat
  repayment_chain_id : Nat
  origin_chain_id : Nat
  deposit_id : Nat
  fill_deadline : Nat
  exclusivity_deadline : Nat
  exclusive_relayer : Nat
  relayer : Nat
  depositor : Nat
  recipient : Nat
  message : Bytes
  relay_execution_info : V3RelayExecutionEventInfo
  deriving DecidableEq

/-- The accounts of the `SlowFillV3Relay` context that the request handler
reads or writes: the `State` singleton, the transaction signer, the fill
status record at the `fills`/relay-hash address (`none` when the account does
not exist yet and `init_if_needed` will create it), and the runtime clock. -/
structure SlowFillV3RelayCtx where
  state : State
  signer : Nat
  fill_status : Option FillStatusAccount
  clock_unix_timestamp : Nat

/-- The current time as the request handler resolves it: the
`state.current_time` override when it is nonzero, the runtime clock
otherwise. -/
def resolveTime (state : State) (clock_unix_timestamp : Nat) : Nat :=
  if state.current_time ≠ 0 then state.current_time else clock_unix_timestamp

/-- `init_if_needed` on the fill-status account: a missing account is created
zero-initialised, so the record starts at `Unfilled` with a zero relayer. -/
def loadFillStatus : Option FillStatusAccount → FillStatusAccount
  | some a => a
  | none => { status := .Unfilled, relayer := 0 }

/-- The observable effects of a successful `request_v3_slow_fill`: the
updated fill-status record and the emitted event. -/
structure RequestResult where
  fill_status : FillStatusAccount
  event : RequestedV3SlowFill
  deriving DecidableEq

/-- `request_v3_slow_fill`, Anchor account constraints included.  Constraint
order follows the account declaration order of `SlowFillV3Relay`: the
`state` account's `paused_fills` constraint, then the `fill_status` account's
relay-hash constraint.  The handler body then mirrors the source: resolve the
current time (the `state.current_time` override when nonzero, the clock
otherwise), require the exclusivity deadline and the fill deadline to have
passed, require the record to be `Unfilled`, and finally stamp
`RequestedSlowFill` with the signer as relayer and emit the event. -/
def request_v3_slow_fill (canonicalHash : V3RelayData → Nat → Nat)
    (ctx : SlowFillV3RelayCtx) (relay_hash : Nat) (relay_data : V3RelayData) :
    Except CustomError RequestResult :=
  if ctx.state.paused_fills then .error .FillsArePaused
  else if ¬ is_relay_hash_valid canonicalHash relay_hash relay_data ctx.state then
    .error .InvalidRelayHash
  else
    let fill_status_account := loadFillStatus ctx.fill_status
    let current_time := resolveTime ctx.state ctx.clock_unix_timestamp
    if relay_data.exclusivity_deadline < current_time then
      if relay_data.fill_deadline < current_time then
        if fill_status_account.status = FillStatus.Unfilled then
          .ok {
            fill_status := { status := .RequestedSlowFill, relayer := ctx.signer },
            event := {
              input_token := relay_data.input_token,
              output_token := relay_data.output_token,
              input_amount := relay_data.input_amount,
              output_amount := relay_data.output_amount,
              origin_chain_id := relay_data.origin_chain_id,
              deposit_id := relay_data.deposit_id,
              fill_deadline := relay_data.fill_deadline,
              exclusivity_deadline := relay_data.exclusivity_deadline,
              exclusive_relayer := relay_data.exclusive_relayer,
              depositor := relay_data.depositor,
              recipient := relay_data.recipient,
              message := relay_data.message } }
        else .error .InvalidSlowFillRequest
      else .error .ExpiredFillDeadline
    else .error .NoSlowFillsInExclusivityWindow

/-- The accounts of the `ExecuteV3SlowRelayLeaf` context that the execution
handler reads or writes: the `State` singleton, the published root bundles
indexed by bundle id, the signer, the existing fill-status record, the
caller-supplied recipient and mint account addresses, and the two token
balances touched by the transfer. -/
structure ExecuteV3SlowRelayLeafCtx where
  state : State
  root_bundles : Nat → RootBundle
  signer : Nat
  fill_status : FillStatusAccount
  recipient : Nat
  mint : Nat
  vault_balance : Nat
  recipient_token_balance : Nat

/-- The observable effects of a successful `execute_v3_slow_relay_leaf`: the
updated fill-status record, the post-transfer balances, and the emitted
event. -/
structure ExecuteResult where
  fill_status : FillStatusAccount
  vault_balance : Nat
  recipient_token_balance : Nat
  event : FilledV3Relay
  deriving DecidableEq

/-- Modelled from the spec: the SPL `transfer_checked` capability is external
to the crate; per the spec it atomically moves `amount` from one balance to
the other, either fully succeeding or failing with no partial effect
(insufficient funds being the representative propagated failure). -/
def transfer_checked (amount from_balance to_balance : Nat) :
    Except CustomError (Nat × Nat) :=
  if amount ≤ from_balance then .ok (from_balance - amount, to_balance + amount)
  else .error .TransferFailed

/-- `execute_v3_slow_relay_leaf`, Anchor account constraints included.
Constraint order follows the account declaration order of
`ExecuteV3SlowRelayLeaf`: the `fill_status` relay-hash constraint, the
`recipient` address constraint, then the `mint` address constraint.  The
handler body then mirrors the source: rebuild the slow fill with
`chain_id` overridden by `state.chain_id`, verify the Merkle proof of the
corrected leaf's keccak hash against the root bundle's `slow_relay_root`,
require the record to be `RequestedSlowFill`, transfer
`updated_output_amount` from the vault to the recipient, mark the record
`Filled` leaving the relayer untouched, and emit the event. -/
def execute_v3_slow_relay_leaf (canonicalHash : V3RelayData → Nat → Nat)
    (keccak : Bytes → Nat) (ctx : ExecuteV3SlowRelayLeafCtx) (relay_hash : Nat)
    (slow_fill_leaf : V3SlowFill) (root_bundle_id : Nat) (proof : List Nat) :
    Except CustomError ExecuteResult :=
  if ¬ is_relay_hash_valid canonicalHash relay_hash slow_fill_leaf.relay_data ctx.state then
    .error .InvalidRelayHash
  else if ctx.recipient ≠ slow_fill_leaf.relay_data.recipient then
    .error .InvalidFillRecipient
  else if ctx.mint ≠ slow_fill_leaf.relay_data.output_token then
    .error .InvalidMint
  else
    let relay_data := slow_fill_leaf.relay_data
    let slow_fill : V3SlowFill := {
      relay_data := relay_data,
      chain_id := ctx.state.chain_id,
      updated_output_amount := slow_fill_leaf.updated_output_amount }
    let root := (ctx.root_bundles root_bundle_id).slow_relay_root
    let leaf := slow_fill.to_keccak_hash keccak
    match verify_merkle_proof keccak root leaf proof with
    | .error e => .error e
    | .ok () =>
      if ctx.fill_status.status = FillStatus.RequestedSlowFill then
        match transfer_checked slow_fill_leaf.updated_output_amount
            ctx.vault_balance ctx.recipient_token_balance with
        | .error e => .error e
        | .ok (vault_balance, recipient_token_balance) =>
          .ok {
            fill_status := { status := .Filled, relayer := ctx.fill_status.relayer },
            vault_balance := vault_balance,
            recipient_token_balance := recipient_token_balance,
            event := {
              input_token := relay_data.input_token,
              output_token := relay_data.output_token,
              input_amount := relay_data.input_amount,
              output_amount := relay_data.output_amount,
              repayment_chain_id := 0,
              origin_chain_id := relay_data.origin_chain_id,
              deposit_id := relay_data.deposit_id,
              fill_deadline := relay_data.fill_deadline,
              exclusivity_deadline := relay_data.exclusivity_deadline,
              exclusive_relayer := relay_data.exclusive_relayer,
              relayer := ctx.signer,
              depositor := relay_data.depositor,
              recipient := relay_data.recipient,
              message := relay_data.message,
              relay_execution_info := {
                updated_recipient := relay_data.recipient,
                updated_message := relay_data.message,
                updated_output_amount := slow_fill_leaf.updated_output_amount,
                fill_type := .SlowFill } } }
      else .error .InvalidSlowFillRequest

/-- The canonical encoding as the specification words it: the fields
concatenated in the fixed order depositor, recipient, exclusiveRelayer,
inputToken, outputToken, inputAmount, outputAmount, originChainId, depositId,
fillDeadline, exclusivityDeadline, message, destinationChainId,
updatedOutputAmount; integer fields little-endian at their Rust widths; the
message as raw bytes with no length prefix. -/
def encodeSpec (s : V3SlowFill) : Bytes :=
  List.flatten [
    pubkeyBytes s.relay_data.depositor,
    pubkeyBytes s.relay_data.recipient,
    pubkeyBytes s.relay_data.exclusive_relayer,
    pubkeyBytes s.relay_data.input_token,
    pubkeyBytes s.relay_data.output_token,
    leBytes 8 s.relay_data.input_amount,
    leBytes 8 s.relay_data.output_amount,
    leBytes 8 s.relay_data.origin_chain_id,
    leBytes 8 s.relay_data.deposit_id,
    leBytes 4 s.relay_data.fill_deadline,
    leBytes 4 s.relay_data.exclusivity_deadline,
    s.relay_data.message,
    leBytes 8 s.chain_id,
    leBytes 8 s.updated_output_amount]

/-- Sample relay data: all fields zero, empty message. -/
def rdSample : V3RelayData :=
  { depositor := 0, recipient := 0, exclusive_relayer := 0, input_token := 0,
    output_token := 0, input_amount := 0, output_amount := 0,
    origin_chain_id := 0, deposit_id := 0, fill_deadline := 0,
    exclusivity_deadline := 0, message := [] }

/-- Sample slow-fill leaf over `rdSample`, with a caller-supplied chain id of
7 and an updated output amount of 3. -/
def leafSample : V3SlowFill :=
  { relay_data := rdSample, chain_id := 7, updated_output_amount := 3 }

/-- Sample canonical-hash primitive: constantly zero. -/
def chSample : V3RelayData → Nat → Nat := fun _ _ => 0

/-- Sample keccak primitive: constantly zero. -/
def kSample : Bytes → Nat := fun _ => 0

/-- Sample request context: fills unpaused, nonzero `current_time` override
of 10, no existing fill-status account. -/
def rctxSample : SlowFillV3RelayCtx :=
  { state := { seed := 0, chain_id := 1, current_time := 10, paused_fills := false },
    signer := 9, fill_status := none, clock_unix_timestamp := 0 }

/-- Sample execution context: fills paused, chain id 1, a fill record in
status `RequestedSlowFill` stamped with relayer 4, matching recipient and
mint, a vault balance of 5 and a recipient balance of 2, and every root
bundle holding root 0. -/
def ectxSample : ExecuteV3SlowRelayLeafCtx :=
  { state := { seed := 0, chain_id := 1, current_time := 0, paused_fills := true },
    root_bundles := fun _ => { slow_relay_root := 0 },
    signer := 9,
    fill_status := { status := .RequestedSlowFill, relayer := 4 },
    recipient := 0, mint := 0, vault_balance := 5, recipient_token_balance := 2 }

/-- C4: `V3SlowFill::to_bytes` concatenates the fields in exactly the fixed
order depositor, recipient, exclusiveRelayer, inputToken, outputToken,
inputAmount, outputAmount, originChainId, depositId, fillDeadline,
exclusivityDeadline, message, destinationChainId, updatedOutputAmount, with
integer fields little-endian and the message appended raw with no length
prefix, and `to_keccak_hash` is the keccak-256 digest of that byte string. -/
theorem to_bytes_matches_spec_order (keccak : Bytes → Nat) (s : V3SlowFill) :
    s.to_bytes = encodeSpec s ∧ s.to_keccak_hash keccak = keccak (encodeSpec s) := by
  constructor
  · simp [V3SlowFill.to_bytes, encodeSpec]
  · simp [V3SlowFill.to_keccak_hash, V3SlowFill.to_bytes, encodeSpec]

/-- C8: whenever `state.paused_fills` is set, `request_v3_slow_fill` aborts
with `FillsArePaused`; the `Except` error result models the transaction
aborting with no state change. -/
theorem request_fails_when_paused (canonicalHash : V3RelayData → Nat → Nat)
    (ctx : SlowFillV3RelayCtx) (relay_hash : Nat) (relay_data : V3RelayData)
    (hp : ctx.state.paused_fills = true) :
    request_v3_slow_fill canonicalHash ctx relay_hash relay_data =
      .error .FillsArePaused := by
  simp [request_v3_slow_fill, hp]

/-- Witness for C8 at a concrete paused context. -/
theorem request_fails_when_paused_witness :
    request_v3_slow_fill chSample
      { rctxSample with
        state := { seed := 0, chain_id := 1, current_time := 10, paused_fills := true } }
      0 rdSample = .error .FillsArePaused :=
  request_fails_when_paused chSample _ 0 rdSample rfl

/-- C6: with the pause and relay-hash constraints passing,
`request_v3_slow_fill` fails with `NoSlowFillsInExclusivityWindow` exactly
when the current time — `state.current_time` when nonzero, the clock
otherwise — is not strictly after `relay_data.exclusivity_deadline`. -/
theorem request_requires_exclusivity_lapsed (canonicalHash : V3RelayData → Nat → Nat)
    (ctx : SlowFillV3RelayCtx) (relay_hash : Nat) (relay_data : V3RelayData)
    (hp : ctx.state.paused_fills = false)
    (hh : is_relay_hash_valid canonicalHash relay_hash relay_data ctx.state = true) :
    request_v3_slow_fill canonicalHash ctx relay_hash relay_data =
        .error .NoSlowFillsInExclusivityWindow ↔
      ¬ relay_data.exclusivity_deadline <
        resolveTime ctx.state ctx.clock_unix_timestamp := by
  simp only [request_v3_slow_fill, hp, hh]
  split_ifs <;> simp_all

/-- Witness for C6 at a concrete request whose exclusivity deadline has not
lapsed. -/
theorem request_requires_exclusivity_lapsed_witness :
    request_v3_slow_fill chSample rctxSample 0
        { rdSample with exclusivity_deadline := 10 } =
      .error .NoSlowFillsInExclusivityWindow :=
  (request_requires_exclusivity_lapsed chSample rctxSample 0
    { rdSample with exclusivity_deadline := 10 } rfl (by decide)).mpr (by decide)

/-- C7: with the pause and relay-hash constraints passing and the
exclusivity window lapsed, `request_v3_slow_fill` fails with
`ExpiredFillDeadline` exactly when the current time is not strictly after
`relay_data.fill_deadline`: a slow-fill request is accepted only once the
fill deadline has already passed. -/
theorem request_requires_fill_deadline_passed (canonicalHash : V3RelayData → Nat → Nat)
    (ctx : SlowFillV3RelayCtx) (relay_hash : Nat) (relay_data : V3RelayData)
    (hp : ctx.state.paused_fills = false)
    (hh : is_relay_hash_valid canonicalHash relay_hash relay_data ctx.state = true)
    (ht : relay_data.exclusivity_deadline <
      resolveTime ctx.state ctx.clock_unix_timestamp) :
    request_v3_slow_fill canonicalHash ctx relay_hash relay_data =
        .error .ExpiredFillDeadline ↔
      ¬ relay_data.fill_deadline <
        resolveTime ctx.state ctx.clock_unix_timestamp := by
  simp only [request_v3_slow_fill, hp, hh]
  split_ifs <;> simp_all

/-- Witness for C7 at a concrete request whose fill deadline has not yet
passed. -/
theorem request_requires_fill_deadline_passed_witness :
    request_v3_slow_fill chSample rctxSample 0
        { rdSample with fill_deadline := 10 } =
      .error .ExpiredFillDeadline :=
  (request_requires_fill_deadline_passed chSample rctxSample 0
    { rdSample with fill_deadline := 10 } rfl (by decide) (by decide)).mpr (by decide)

/-- C5: both handlers check that the caller-supplied relay hash equals the
canonical hash of the supplied relay data given the state's configuration
and abort with `InvalidRelayHash` when they differ (after the pause
constraint, which is checked first in the request context), and a newly
created fill record starts at `Unfilled`. -/
theorem relay_hash_checked_on_every_access
    (canonicalHash : V3RelayData → Nat → Nat) (keccak : Bytes → Nat)
    (rctx : SlowFillV3RelayCtx) (ectx : ExecuteV3SlowRelayLeafCtx)
    (relay_hash : Nat) (relay_data : V3RelayData) (leaf : V3SlowFill)
    (root_bundle_id : Nat) (proof : List Nat) :
    (rctx.state.paused_fills = false →
      is_relay_hash_valid canonicalHash relay_hash relay_data rctx.state = false →
      request_v3_slow_fill canonicalHash rctx relay_hash relay_data =
        .error .InvalidRelayHash)
    ∧ (is_relay_hash_valid canonicalHash relay_hash leaf.relay_data ectx.state = false →
      execute_v3_slow_relay_leaf canonicalHash keccak ectx relay_hash leaf
          root_bundle_id proof =
        .error .InvalidRelayHash)
    ∧ loadFillStatus none = { status := .Unfilled, relayer := 0 } := by
  refine ⟨fun hp hh => ?_, fun hh => ?_, rfl⟩
  · simp [request_v3_slow_fill, hp, hh]
  · simp [execute_v3_slow_relay_leaf, hh]

/-- Witness for C5 at concrete accesses with a mismatched relay hash. -/
theorem relay_hash_checked_on_every_access_witness :
    request_v3_slow_fill chSample rctxSample 5 rdSample = .error .InvalidRelayHash
    ∧ execute_v3_slow_relay_leaf chSample kSample ectxSample 5 leafSample 0 [] =
      .error .InvalidRelayHash := by
  obtain ⟨h1, h2, _⟩ := relay_hash_checked_on_every_access chSample kSample
    rctxSample ectxSample 5 rdSample leafSample 0 []
  exact ⟨h1 rfl (by decide), h2 (by decide)⟩

/-- The `FilledV3Relay` event as `execute_v3_slow_relay_leaf` builds it. -/
def slowFillEvent (ectx : ExecuteV3SlowRelayLeafCtx) (leaf : V3SlowFill) : FilledV3Relay :=
  { input_token := leaf.relay_data.input_token,
    output_token := leaf.relay_data.output_token,
    input_amount := leaf.relay_data.input_amount,
    output_amount := leaf.relay_data.output_amount,
    repayment_chain_id := 0,
    origin_chain_id := leaf.relay_data.origin_chain_id,
    deposit_id := leaf.relay_data.deposit_id,
    fill_deadline := leaf.relay_data.fill_deadline,
    exclusivity_deadline := leaf.relay_data.exclusivity_deadline,
    exclusive_relayer := leaf.relay_data.exclusive_relayer,
    relayer := ectx.signer,
    depositor := leaf.relay_data.depositor,
    recipient := leaf.relay_data.recipient,
    message := leaf.relay_data.message,
    relay_execution_info := {
      updated_recipient := leaf.relay_data.recipient,
      updated_message := leaf.relay_data.message,
      updated_output_amount := leaf.updated_output_amount,
      fill_type := .SlowFill } }

/-- Characterization of a successful `request_v3_slow_fill`: every
precondition holds and the result stamps `RequestedSlowFill` with the signer
as relayer and carries the event. -/
theorem request_ok_iff (canonicalHash : V3RelayData → Nat → Nat)
    (ctx : SlowFillV3RelayCtx) (relay_hash : Nat) (relay_data : V3RelayData)
    {res : RequestResult} :
    request_v3_slow_fill canonicalHash ctx relay_hash relay_data = .ok res ↔
      (ctx.state.paused_fills = false ∧
       is_relay_hash_valid canonicalHash relay_hash relay_data ctx.state = true ∧
       relay_data.exclusivity_deadline <
         resolveTime ctx.state ctx.clock_unix_timestamp ∧
       relay_data.fill_deadline <
         resolveTime ctx.state ctx.clock_unix_timestamp ∧
       (loadFillStatus ctx.fill_status).status = .Unfilled ∧
       res = {
         fill_status := { status := .RequestedSlowFill, relayer := ctx.signer },
         event := {
           input_token := relay_data.input_token,
           output_token := relay_data.output_token,
           input_amount := relay_data.input_amount,
           output_amount := relay_data.output_amount,
           origin_chain_id := relay_data.origin_chain_id,
           deposit_id := relay_data.deposit_id,
           fill_deadline := relay_data.fill_deadline,
           exclusivity_deadline := relay_data.exclusivity_deadline,
           exclusive_relayer := relay_data.exclusive_relayer,
           depositor := relay_data.depositor,
           recipient := relay_data.recipient,
           message := relay_data.message } }) := by
  unfold request_v3_slow_fill
  by_cases hp : ctx.state.paused_fills = true
  · simp [hp]
  · by_cases hh : is_relay_hash_valid canonicalHash relay_hash relay_data ctx.state = true
    · by_cases ht1 : relay_data.exclusivity_deadline <
        resolveTime ctx.state ctx.clock_unix_timestamp
      · by_cases ht2 : relay_data.fill_deadline <
          resolveTime ctx.state ctx.clock_unix_timestamp
        · by_cases hs : (loadFillStatus ctx.fill_status).status = FillStatus.Unfilled
          · simp [hp, hh, ht1, ht2, hs, @eq_comm _ res]
          · simp [hp, hh, ht1, ht2, hs]
        · simp [hp, hh, ht1, ht2]
      · simp [hp, hh, ht1]
    · simp [hp, hh]

/-- Characterization of a successful `execute_v3_slow_relay_leaf`: every
account constraint and precondition holds, the vault covers the amount, and
the result is the debited vault, the credited recipient, the `Filled` record
with the relayer untouched, and the event. -/
theorem execute_ok_iff (canonicalHash : V3RelayData → Nat → Nat)
    (keccak : Bytes → Nat) (ectx : ExecuteV3SlowRelayLeafCtx) (relay_hash : Nat)
    (leaf : V3SlowFill) (root_bundle_id : Nat) (proof : List Nat)
    {res : ExecuteResult} :
    execute_v3_slow_relay_leaf canonicalHash keccak ectx relay_hash leaf
        root_bundle_id proof = .ok res ↔
      (is_relay_hash_valid canonicalHash relay_hash leaf.relay_data ectx.state = true ∧
       ectx.recipient = leaf.relay_data.recipient ∧
       ectx.mint = leaf.relay_data.output_token ∧
       process_proof keccak
         (V3SlowFill.to_keccak_hash keccak
           { relay_data := leaf.relay_data, chain_id := ectx.state.chain_id,
             updated_output_amount := leaf.updated_output_amount }) proof =
         (ectx.root_bundles root_bundle_id).slow_relay_root ∧
       ectx.fill_status.status = .RequestedSlowFill ∧
       leaf.updated_output_amount ≤ ectx.vault_balance ∧
       res = {
         fill_status := { status := .Filled, relayer := ectx.fill_status.relayer },
         vault_balance := ectx.vault_balance - leaf.updated_output_amount,
         recipient_token_balance :=
           ectx.recipient_token_balance + leaf.updated_output_amount,
         event := slowFillEvent ectx leaf }) := by
  unfold execute_v3_slow_relay_leaf verify_merkle_proof transfer_checked
  by_cases h1 : is_relay_hash_valid canonicalHash relay_hash leaf.relay_data ectx.state = true
  · by_cases h2 : ectx.recipient = leaf.relay_data.recipient
    · by_cases h3 : ectx.mint = leaf.relay_data.output_token
      · by_cases hpr : process_proof keccak
          (V3SlowFill.to_keccak_hash keccak
            { relay_data := leaf.relay_data, chain_id := ectx.state.chain_id,
              updated_output_amount := leaf.updated_output_amount }) proof =
          (ectx.root_bundles root_bundle_id).slow_relay_root
        · by_cases hs : ectx.fill_status.status = FillStatus.RequestedSlowFill
          · by_cases hv : leaf.updated_output_amount ≤ ectx.vault_balance
            · simp [h1, h2, h3, hpr, hs, hv, slowFillEvent, @eq_comm _ res]
            · simp [h1, h2, h3, hpr, hs, hv]
          · simp [h1, h2, h3, hpr, hs]
        · simp [h1, h2, h3, hpr]
      · simp [h1, h2, h3]
    · simp [h1, h2]
  · simp [h1]

/-- Characterization of `request_v3_slow_fill` failing on the record's
lifecycle state: with every earlier check passing, a record that is not
`Unfilled` aborts the request with `InvalidSlowFillRequest`. -/
theorem request_error_invalid_slow_fill (canonicalHash : V3RelayData → Nat → Nat)
    (ctx : SlowFillV3RelayCtx) (relay_hash : Nat) (relay_data : V3RelayData)
    (hp : ctx.state.paused_fills = false)
    (hh : is_relay_hash_valid canonicalHash relay_hash relay_data ctx.state = true)
    (ht1 : relay_data.exclusivity_deadline <
      resolveTime ctx.state ctx.clock_unix_timestamp)
    (ht2 : relay_data.fill_deadline <
      resolveTime ctx.state ctx.clock_unix_timestamp)
    (hs : (loadFillStatus ctx.fill_status).status ≠ .Unfilled) :
    request_v3_slow_fill canonicalHash ctx relay_hash relay_data =
      .error .InvalidSlowFillRequest := by
  simp [request_v3_slow_fill, hp, hh, ht1, ht2, hs]

/-- Characterization of `execute_v3_slow_relay_leaf` failing on the record's
lifecycle state: with every account constraint and the Merkle proof passing,
a record that is not `RequestedSlowFill` aborts the execution with
`InvalidSlowFillRequest`. -/
theorem execute_error_invalid_slow_fill (canonicalHash : V3RelayData → Nat → Nat)
    (keccak : Bytes → Nat) (ectx : ExecuteV3SlowRelayLeafCtx) (relay_hash : Nat)
    (leaf : V3SlowFill) (root_bundle_id : Nat) (proof : List Nat)
    (hh : is_relay_hash_valid canonicalHash relay_hash leaf.relay_data ectx.state = true)
    (hr : ectx.recipient = leaf.relay_data.recipient)
    (hm : ectx.mint = leaf.relay_data.output_token)
    (hpr : process_proof keccak
      (V3SlowFill.to_keccak_hash keccak
        { relay_data := leaf.relay_data, chain_id := ectx.state.chain_id,
          updated_output_amount := leaf.updated_output_amount }) proof =
      (ectx.root_bundles root_bundle_id).slow_relay_root)
    (hs : ectx.fill_status.status ≠ .RequestedSlowFill) :
    execute_v3_slow_relay_leaf canonicalHash keccak ectx relay_hash leaf
        root_bundle_id proof =
      .error .InvalidSlowFillRequest := by
  simp [execute_v3_slow_relay_leaf, verify_merkle_proof, hh, hr, hm, hpr, hs]

/-- C1: the fill lifecycle is the strict state machine
Unfilled -> RequestedSlowFill -> Filled: a request succeeds only from
`Unfilled` (moving the record to `RequestedSlowFill`), an execution succeeds
only from `RequestedSlowFill` (moving it to `Filled`); with the other
preconditions passing, a record in any other state aborts the corresponding
call with `InvalidSlowFillRequest`, and re-executing the same relay hash
after a successful execution fails with `InvalidSlowFillRequest`, so no
double transfer occurs. -/
theorem fill_status_state_machine
    (canonicalHash : V3RelayData → Nat → Nat) (keccak : Bytes → Nat)
    (rctx : SlowFillV3RelayCtx) (ectx : ExecuteV3SlowRelayLeafCtx)
    (relay_hash : Nat) (relay_data : V3RelayData) (leaf : V3SlowFill)
    (root_bundle_id : Nat) (proof : List Nat) :
    (∀ res, request_v3_slow_fill canonicalHash rctx relay_hash relay_data = .ok res →
      (loadFillStatus rctx.fill_status).status = .Unfilled ∧
      res.fill_status.status = .RequestedSlowFill)
    ∧ (rctx.state.paused_fills = false →
       is_relay_hash_valid canonicalHash relay_hash relay_data rctx.state = true →
       relay_data.exclusivity_deadline < resolveTime rctx.state rctx.clock_unix_timestamp →
       relay_data.fill_deadline < resolveTime rctx.state rctx.clock_unix_timestamp →
       (loadFillStatus rctx.fill_status).status ≠ .Unfilled →
       request_v3_slow_fill canonicalHash rctx relay_hash relay_data =
         .error .InvalidSlowFillRequest)
    ∧ (∀ res, execute_v3_slow_relay_leaf canonicalHash keccak ectx relay_hash leaf
          root_bundle_id proof = .ok res →
      ectx.fill_status.status = .RequestedSlowFill ∧ res.fill_status.status = .Filled)
    ∧ (is_relay_hash_valid canonicalHash relay_hash leaf.relay_data ectx.state = true →
       ectx.recipient = leaf.relay_data.recipient →
       ectx.mint = leaf.relay_data.output_token →
       process_proof keccak (V3SlowFill.to_keccak_hash keccak
         { relay_data := leaf.relay_data, chain_id := ectx.state.chain_id,
           updated_output_amount := leaf.updated_output_amount }) proof =
         (ectx.root_bundles root_bundle_id).slow_relay_root →
       ectx.fill_status.status ≠ .RequestedSlowFill →
       execute_v3_slow_relay_leaf canonicalHash keccak ectx relay_hash leaf
         root_bundle_id proof = .error .InvalidSlowFillRequest)
    ∧ (∀ res, execute_v3_slow_relay_leaf canonicalHash keccak ectx relay_hash leaf
          root_bundle_id proof = .ok res →
       execute_v3_slow_relay_leaf canonicalHash keccak
         { ectx with
           fill_status := res.fill_status,
           vault_balance := res.vault_balance,
           recipient_token_balance := res.recipient_token_balance }
         relay_hash leaf root_bundle_id proof = .error .InvalidSlowFillRequest) := by
  refine ⟨?_, ?_, ?_, ?_, ?_⟩
  · intro res h
    rw [request_ok_iff] at h
    obtain ⟨-, -, -, -, h5, h6⟩ := h
    exact ⟨h5, by simp [h6]⟩
  · exact request_error_invalid_slow_fill canonicalHash rctx relay_hash relay_data
  · intro res h
    rw [execute_ok_iff] at h
    obtain ⟨-, -, -, -, h5, -, h7⟩ := h
    exact ⟨h5, by simp [h7]⟩
  · exact execute_error_invalid_slow_fill canonicalHash keccak ectx relay_hash leaf
      root_bundle_id proof
  · intro res h
    rw [execute_ok_iff] at h
    obtain ⟨h1, h2, h3, h4, h5, h6, h7⟩ := h
    exact execute_error_invalid_slow_fill canonicalHash keccak _ relay_hash leaf
      root_bundle_id proof h1 h2 h3 h4 (by simp [h7])

/-- Witness for C1: a record already `Filled` makes both the request and the
execution abort with `InvalidSlowFillRequest` at concrete inputs. -/
theorem fill_status_state_machine_witness :
    request_v3_slow_fill chSample
        { rctxSample with fill_status := some { status := .Filled, relayer := 2 } }
        0 rdSample = .error .InvalidSlowFillRequest
    ∧ execute_v3_slow_relay_leaf chSample kSample
        { ectxSample with fill_status := { status := .Filled, relayer := 4 } }
        0 leafSample 0 [] = .error .InvalidSlowFillRequest := by
  obtain ⟨-, h2, -, h4, -⟩ := fill_status_state_machine chSample kSample
    { rctxSample with fill_status := some { status := .Filled, relayer := 2 } }
    { ectxSample with fill_status := { status := .Filled, relayer := 4 } }
    0 rdSample leafSample 0 []
  exact ⟨h2 rfl (by decide) (by decide) (by decide) (by decide),
         h4 (by decide) rfl rfl (by decide) (by decide)⟩

/-- The concrete result of the sample successful execution: record moved to
`Filled` with the requester's relayer kept, vault 5 debited by 3, recipient
balance 2 credited by 3. -/
def execResSample : ExecuteResult :=
  { fill_status := { status := .Filled, relayer := 4 },
    vault_balance := 2,
    recipient_token_balance := 5,
    event := slowFillEvent ectxSample leafSample }

/-- C2: `execute_v3_slow_relay_leaf` ignores the caller-supplied
destination chain id (the result is invariant under changing it), hashes the
leaf corrected with `state.chain_id`, and verifies the Merkle proof of that
hash against `root_bundles[root_bundle_id].slow_relay_root`, failing with
`InvalidMerkleProof` when the recomputed root differs; with a valid proof
for the corrected leaf and the remaining preconditions it succeeds. -/
theorem execute_overrides_chain_id (canonicalHash : V3RelayData → Nat → Nat)
    (keccak : Bytes → Nat) (ectx : ExecuteV3SlowRelayLeafCtx) (relay_hash : Nat)
    (leaf : V3SlowFill) (root_bundle_id : Nat) (proof : List Nat) :
    (∀ c, execute_v3_slow_relay_leaf canonicalHash keccak ectx relay_hash
        { leaf with chain_id := c } root_bundle_id proof =
      execute_v3_slow_relay_leaf canonicalHash keccak ectx relay_hash leaf
        root_bundle_id proof)
    ∧ (is_relay_hash_valid canonicalHash relay_hash leaf.relay_data ectx.state = true →
       ectx.recipient = leaf.relay_data.recipient →
       ectx.mint = leaf.relay_data.output_token →
       process_proof keccak (V3SlowFill.to_keccak_hash keccak
           { relay_data := leaf.relay_data, chain_id := ectx.state.chain_id,
             updated_output_amount := leaf.updated_output_amount }) proof ≠
         (ectx.root_bundles root_bundle_id).slow_relay_root →
       execute_v3_slow_relay_leaf canonicalHash keccak ectx relay_hash leaf
         root_bundle_id proof = .error .InvalidMerkleProof)
    ∧ (is_relay_hash_valid canonicalHash relay_hash leaf.relay_data ectx.state = true →
       ectx.recipient = leaf.relay_data.recipient →
       ectx.mint = leaf.relay_data.output_token →
       process_proof keccak (V3SlowFill.to_keccak_hash keccak
           { relay_data := leaf.relay_data, chain_id := ectx.state.chain_id,
             updated_output_amount := leaf.updated_output_amount }) proof =
         (ectx.root_bundles root_bundle_id).slow_relay_root →
       ectx.fill_status.status = .RequestedSlowFill →
       leaf.updated_output_amount ≤ ectx.vault_balance →
       execute_v3_slow_relay_leaf canonicalHash keccak ectx relay_hash leaf
           root_bundle_id proof =
         .ok {
           fill_status := { status := .Filled, relayer := ectx.fill_status.relayer },
           vault_balance := ectx.vault_balance - leaf.updated_output_amount,
           recipient_token_balance :=
             ectx.recipient_token_balance + leaf.updated_output_amount,
           event := slowFillEvent ectx leaf }) := by
  refine ⟨fun c => rfl, fun hh hr hm hpr => ?_, fun hh hr hm hpr hs hv => ?_⟩
  · simp [execute_v3_slow_relay_leaf, verify_merkle_proof, hh, hr, hm, hpr]
  · exact (execute_ok_iff canonicalHash keccak ectx relay_hash leaf root_bundle_id
      proof).mpr ⟨hh, hr, hm, hpr, hs, hv, rfl⟩

/-- Witness for C2: forging the chain id of the sample leaf does not change
the outcome; against a root the corrected leaf's proof cannot reach, the
execution fails with `InvalidMerkleProof`; with the matching root it
succeeds. -/
theorem execute_overrides_chain_id_witness :
    (execute_v3_slow_relay_leaf chSample kSample ectxSample 0
        { leafSample with chain_id := 42 } 0 [] =
      execute_v3_slow_relay_leaf chSample kSample ectxSample 0 leafSample 0 [])
    ∧ execute_v3_slow_relay_leaf chSample kSample
        { ectxSample with root_bundles := fun _ => { slow_relay_root := 9 } }
        0 leafSample 0 [] = .error .InvalidMerkleProof
    ∧ execute_v3_slow_relay_leaf chSample kSample ectxSample 0 leafSample 0 [] =
      .ok execResSample := by
  refine ⟨(execute_overrides_chain_id chSample kSample ectxSample 0 leafSample
      0 []).1 42, ?_, ?_⟩
  · exact (execute_overrides_chain_id chSample kSample
      { ectxSample with root_bundles := fun _ => { slow_relay_root := 9 } }
      0 leafSample 0 []).2.1 (by decide) rfl rfl (by decide)
  · exact (execute_overrides_chain_id chSample kSample ectxSample 0 leafSample
      0 []).2.2 (by decide) rfl rfl (by decide) (by decide) (by decide)

/-- C3: a successful `execute_v3_slow_relay_leaf` transfers exactly
`updated_output_amount` from the vault to the recipient, marks the record
`Filled` with the relayer stamped at request time untouched, and emits a
`FilledV3Relay` whose execution info carries the original recipient and
message, the leaf's `updated_output_amount` and the `SlowFill` tag, with
`repayment_chain_id = 0` and the executing signer as the event's top-level
relayer. -/
theorem execute_success_effects (canonicalHash : V3RelayData → Nat → Nat)
    (keccak : Bytes → Nat) (ectx : ExecuteV3SlowRelayLeafCtx) (relay_hash : Nat)
    (leaf : V3SlowFill) (root_bundle_id : Nat) (proof : List Nat)
    (res : ExecuteResult)
    (h : execute_v3_slow_relay_leaf canonicalHash keccak ectx relay_hash leaf
      root_bundle_id proof = .ok res) :
    leaf.updated_output_amount ≤ ectx.vault_balance ∧
    res.vault_balance = ectx.vault_balance - leaf.updated_output_amount ∧
    res.recipient_token_balance =
      ectx.recipient_token_balance + leaf.updated_output_amount ∧
    res.fill_status = { status := .Filled, relayer := ectx.fill_status.relayer } ∧
    res.event.relayer = ectx.signer ∧
    res.event.repayment_chain_id = 0 ∧
    res.event.relay_execution_info = {
      updated_recipient := leaf.relay_data.recipient,
      updated_message := leaf.relay_data.message,
      updated_output_amount := leaf.updated_output_amount,
      fill_type := .SlowFill } := by
  rw [execute_ok_iff] at h
  obtain ⟨-, -, -, -, -, h6, h7⟩ := h
  subst h7
  exact ⟨h6, rfl, rfl, rfl, rfl, rfl, rfl⟩

/-- Witness for C3: the effects at the concrete sample execution. -/
theorem execute_success_effects_witness :
    leafSample.updated_output_amount ≤ ectxSample.vault_balance ∧
    execResSample.vault_balance =
      ectxSample.vault_balance - leafSample.updated_output_amount ∧
    execResSample.recipient_token_balance =
      ectxSample.recipient_token_balance + leafSample.updated_output_amount ∧
    execResSample.fill_status =
      { status := .Filled, relayer := ectxSample.fill_status.relayer } ∧
    execResSample.event.relayer = ectxSample.signer ∧
    execResSample.event.repayment_chain_id = 0 ∧
    execResSample.event.relay_execution_info = {
      updated_recipient := leafSample.relay_data.recipient,
      updated_message := leafSample.relay_data.message,
      updated_output_amount := leafSample.updated_output_amount,
      fill_type := .SlowFill } :=
  execute_success_effects chSample kSample ectxSample 0 leafSample 0 []
    execResSample (by rfl)

/-- C10: `execute_v3_slow_relay_leaf` reads neither `paused_fills` nor
`current_time` (its outcome is invariant under changing them, so it performs
no pause and no deadline check), it can only fail with `InvalidRelayHash`,
`InvalidFillRecipient`, `InvalidMint`, `InvalidMerkleProof`,
`InvalidSlowFillRequest` or a propagated transfer error, and with the
preconditions satisfied it succeeds at any pause flag and any time. -/
theorem execute_error_taxonomy (canonicalHash : V3RelayData → Nat → Nat)
    (keccak : Bytes → Nat) (ectx : ExecuteV3SlowRelayLeafCtx) (relay_hash : Nat)
    (leaf : V3SlowFill) (root_bundle_id : Nat) (proof : List Nat) :
    (∀ b t, execute_v3_slow_relay_leaf canonicalHash keccak
        { ectx with state := { ectx.state with paused_fills := b, current_time := t } }
        relay_hash leaf root_bundle_id proof =
      execute_v3_slow_relay_leaf canonicalHash keccak ectx relay_hash leaf
        root_bundle_id proof)
    ∧ (∀ e, execute_v3_slow_relay_leaf canonicalHash keccak ectx relay_hash leaf
          root_bundle_id proof = .error e →
        e = .InvalidRelayHash ∨ e = .InvalidFillRecipient ∨ e = .InvalidMint ∨
        e = .InvalidMerkleProof ∨ e = .InvalidSlowFillRequest ∨ e = .TransferFailed)
    ∧ (∀ b t, is_relay_hash_valid canonicalHash relay_hash leaf.relay_data ectx.state = true →
       ectx.recipient = leaf.relay_data.recipient →
       ectx.mint = leaf.relay_data.output_token →
       process_proof keccak (V3SlowFill.to_keccak_hash keccak
           { relay_data := leaf.relay_data, chain_id := ectx.state.chain_id,
             updated_output_amount := leaf.updated_output_amount }) proof =
         (ectx.root_bundles root_bundle_id).slow_relay_root →
       ectx.fill_status.status = .RequestedSlowFill →
       leaf.updated_output_amount ≤ ectx.vault_balance →
       execute_v3_slow_relay_leaf canonicalHash keccak
           { ectx with state := { ectx.state with paused_fills := b, current_time := t } }
           relay_hash leaf root_bundle_id proof =
         .ok {
           fill_status := { status := .Filled, relayer := ectx.fill_status.relayer },
           vault_balance := ectx.vault_balance - leaf.updated_output_amount,
           recipient_token_balance :=
             ectx.recipient_token_balance + leaf.updated_output_amount,
           event := slowFillEvent ectx leaf }) := by
  refine ⟨fun b t => rfl, fun e h => ?_, fun b t hh hr hm hpr hs hv => ?_⟩
  · unfold execute_v3_slow_relay_leaf verify_merkle_proof transfer_checked at h
    by_cases h1 : is_relay_hash_valid canonicalHash relay_hash leaf.relay_data ectx.state = true
    · by_cases h2 : ectx.recipient = leaf.relay_data.recipient
      · by_cases h3 : ectx.mint = leaf.relay_data.output_token
        · by_cases hpr : process_proof keccak (V3SlowFill.to_keccak_hash keccak
              { relay_data := leaf.relay_data, chain_id := ectx.state.chain_id,
                updated_output_amount := leaf.updated_output_amount }) proof =
              (ectx.root_bundles root_bundle_id).slow_relay_root
          · by_cases hs : ectx.fill_status.status = FillStatus.RequestedSlowFill
            · by_cases hv : leaf.updated_output_amount ≤ ectx.vault_balance
              · simp [h1, h2, h3, hpr, hs, hv] at h
              · simp [h1, h2, h3, hpr, hs, hv] at h
                simp [h]
            · simp [h1, h2, h3, hpr, hs] at h
              simp [h]
          · simp [h1, h2, h3, hpr] at h
            simp [h]
        · simp [h1, h2, h3] at h
          simp [h]
      · simp [h1, h2] at h
        simp [h]
    · simp [h1] at h
      simp [h]
  · exact (execute_ok_iff canonicalHash keccak
      { ectx with state := { ectx.state with paused_fills := b, current_time := t } }
      relay_hash leaf root_bundle_id proof).mpr ⟨hh, hr, hm, hpr, hs, hv, rfl⟩

/-- Witness for C10: at the sample inputs, changing the pause flag and time
leaves the outcome unchanged, a mismatched mint yields one of the listed
errors, and the execution succeeds with `paused_fills = true`. -/
theorem execute_error_taxonomy_witness :
    (execute_v3_slow_relay_leaf chSample kSample
        { ectxSample with
          state := { ectxSample.state with paused_fills := false, current_time := 99 } }
        0 leafSample 0 [] =
      execute_v3_slow_relay_leaf chSample kSample ectxSample 0 leafSample 0 [])
    ∧ (CustomError.InvalidMint = .InvalidRelayHash ∨
       CustomError.InvalidMint = .InvalidFillRecipient ∨
       CustomError.InvalidMint = .InvalidMint ∨
       CustomError.InvalidMint = .InvalidMerkleProof ∨
       CustomError.InvalidMint = .InvalidSlowFillRequest ∨
       CustomError.InvalidMint = .TransferFailed)
    ∧ execute_v3_slow_relay_leaf chSample kSample
        { ectxSample with
          state := { ectxSample.state with paused_fills := true, current_time := 0 } }
        0 leafSample 0 [] = .ok execResSample := by
  refine ⟨(execute_error_taxonomy chSample kSample ectxSample 0 leafSample 0 []).1
      false 99, ?_, ?_⟩
  · exact (execute_error_taxonomy chSample kSample { ectxSample with mint := 8 }
      0 leafSample 0 []).2.1 .InvalidMint (by rfl)
  · exact (execute_error_taxonomy chSample kSample ectxSample 0 leafSample
      0 []).2.2 true 0 (by decide) rfl rfl (by decide) (by decide) (by decide)

/-- `leBytes w` always produces exactly `w` bytes. -/
theorem leBytes_length (w v : Nat) : (leBytes w v).length = w := by
  induction w generalizing v with
  | zero => rfl
  | succ w ih => simp [leBytes, ih]

/-- `leBytes w` is injective on values below `256 ^ w`. -/
theorem leBytes_inj {w a b : Nat} (ha : a < 256 ^ w) (hb : b < 256 ^ w)
    (h : leBytes w a = leBytes w b) : a = b := by
  induction w generalizing a b with
  | zero =>
    simp only [pow_zero, Nat.lt_one_iff] at ha hb
    omega
  | succ w ih =>
    simp only [leBytes, List.cons.injEq] at h
    obtain ⟨h1, h2⟩ := h
    have ha' : a / 256 < 256 ^ w := by
      rw [Nat.div_lt_iff_lt_mul (by norm_num)]
      calc a < 256 ^ (w + 1) := ha
        _ = 256 ^ w * 256 := by ring
    have hb' : b / 256 < 256 ^ w := by
      rw [Nat.div_lt_iff_lt_mul (by norm_num)]
      calc b < 256 ^ (w + 1) := hb
        _ = 256 ^ w * 256 := by ring
    have h3 := ih ha' hb' h2
    omega

/-- Splitting equal concatenations at an in-range little-endian segment. -/
theorem append_le_inj {w x y : Nat} {r1 r2 : Bytes} (hx : x < 256 ^ w)
    (hy : y < 256 ^ w) (h : leBytes w x ++ r1 = leBytes w y ++ r2) :
    x = y ∧ r1 = r2 := by
  obtain ⟨h1, h2⟩ := List.append_inj h (by rw [leBytes_length, leBytes_length])
  exact ⟨leBytes_inj hx hy h1, h2⟩

/-- C9: `V3SlowFill::to_bytes` is deterministic (equal leaves encode
equally) and injective on well-formed leaves: two leaves encode to the same
byte string exactly when they are equal; the message, the only
variable-length field, is pinned down by the total length because every
other field has a fixed width. -/
theorem to_bytes_deterministic_injective (s1 s2 : V3SlowFill)
    (h1 : s1.Wf) (h2 : s2.Wf) :
    s1.to_bytes = s2.to_bytes ↔ s1 = s2 := by
  cases s1 with | mk rd1 c1 u1 =>
  cases s2 with | mk rd2 c2 u2 =>
  cases rd1
  cases rd2
  constructor
  · intro h
    have p32 : (2 : Nat) ^ 256 = 256 ^ 32 := by norm_num
    have p8 : (2 : Nat) ^ 64 = 256 ^ 8 := by norm_num
    have p4 : (2 : Nat) ^ 32 = 256 ^ 4 := by norm_num
    obtain ⟨⟨hd1, hr1, hx1, hi1, ho1, hia1, hoa1, hoc1, hdi1, hfd1, hed1, hm1⟩, hc1, hu1⟩ := h1
    obtain ⟨⟨hd2, hr2, hx2, hi2, ho2, hia2, hoa2, hoc2, hdi2, hfd2, hed2, hm2⟩, hc2, hu2⟩ := h2
    rw [p32] at hd1 hr1 hx1 hi1 ho1 hd2 hr2 hx2 hi2 ho2
    rw [p8] at hia1 hoa1 hoc1 hdi1 hc1 hu1 hia2 hoa2 hoc2 hdi2 hc2 hu2
    rw [p4] at hfd1 hed1 hfd2 hed2
    unfold V3SlowFill.to_bytes pubkeyBytes at h
    simp only [List.append_assoc] at h
    obtain ⟨e1, h⟩ := append_le_inj hd1 hd2 h
    obtain ⟨e2, h⟩ := append_le_inj hr1 hr2 h
    obtain ⟨e3, h⟩ := append_le_inj hx1 hx2 h
    obtain ⟨e4, h⟩ := append_le_inj hi1 hi2 h
    obtain ⟨e5, h⟩ := append_le_inj ho1 ho2 h
    obtain ⟨e6, h⟩ := append_le_inj hia1 hia2 h
    obtain ⟨e7, h⟩ := append_le_inj hoa1 hoa2 h
    obtain ⟨e8, h⟩ := append_le_inj hoc1 hoc2 h
    obtain ⟨e9, h⟩ := append_le_inj hdi1 hdi2 h
    obtain ⟨e10, h⟩ := append_le_inj hfd1 hfd2 h
    obtain ⟨e11, h⟩ := append_le_inj hed1 hed2 h
    obtain ⟨e12, h⟩ := List.append_inj' h (by simp [leBytes_length])
    obtain ⟨e13, h⟩ := append_le_inj hc1 hc2 h
    have e14 := leBytes_inj hu1 hu2 h
    simp_all
  · intro h
    rw [h]

/-- Witness for C9 at the concrete well-formed sample leaf. -/
theorem to_bytes_deterministic_injective_witness :
    leafSample.to_bytes = leafSample.to_bytes ↔ leafSample = leafSample := by
  have hwf : leafSample.Wf := by
    unfold V3SlowFill.Wf V3RelayData.Wf leafSample rdSample
    norm_num
  exact to_bytes_deterministic_injective leafSample leafSample hwf hwf

end SvmSpoke
